import Mathlib

/-!
# go-oauth2-test: the OAuth2 handlers of `main.go`

A shallow embedding of the three HTTP handlers of `main.go` and of `getUserInfo`.

* Everything the handlers call outside the repository that performs I/O (the
  token endpoint, the userinfo endpoint, the template file) is a field of
  `World`, and so are the two library functions whose code is not followed here,
  `AuthCodeURL` and `url.Parse`; a fallible Go call `(v, err)` is an
  `Except GoError`.
* `http.Redirect` is followed in what it stores in the `Location` header: the
  url resolved against the request path when it is relative, with its non-ASCII
  bytes hex-escaped.
* A handler returns a `Result`: the ordered trace of the collaborator calls it
  made, the response writer as it left it, and how it ended.  `log.Fatalln`
  prints and then calls `os.Exit(1)`; `template.Must` panics on an error.
* Go strings are Lean strings; `!=` on strings is plain inequality.
-/

namespace GoOAuth2Test

/-! ## Data model -/

/-- A Go `error` value, identified by its message. -/
structure GoError where
  msg : String
deriving DecidableEq, Repr

/-- The `context.Context` values in play: `context.Background()`, which is never
cancelled and has no deadline, and the context of an incoming request
(`r.Context()`), which the server cancels when the client goes away. -/
inductive Context where
  | background
  | request (id : Nat)
deriving DecidableEq, Repr

/-- Whether a context can ever be cancelled. -/
def Context.cancellable : Context → Bool
  | .background => false
  | .request _ => true

/-- The fields of `oauth2.Config` (with its `Endpoint` flattened). -/
structure Config where
  ClientID : String
  ClientSecret : String
  AuthURL : String
  TokenURL : String
  RedirectURL : String
  Scopes : List String
deriving DecidableEq, Repr

/-- The fields of `oauth2.Token`. -/
structure Token where
  AccessToken : String
  TokenType : String
  RefreshToken : String
  Expiry : Nat
deriving DecidableEq, Repr

/-- The profile record `auth.Userinfoplus` returned by the userinfo endpoint. -/
structure Userinfoplus where
  Id : String
  Email : String
  VerifiedEmail : Bool
  Name : String
  Picture : String
deriving DecidableEq, Repr

/-- The service built by
`auth.NewService(ctx, option.WithTokenSource(googleOauthConfig.TokenSource(ctx, token)))`:
it remembers the context and the token it was built from. -/
structure Service where
  ctx : Context
  token : Token
deriving DecidableEq, Repr

/-- A parsed `text/template` template, identified by the text of its file. -/
structure Template where
  text : String
deriving DecidableEq, Repr

/-- An incoming `*http.Request`: method, path, headers, the parsed form
(`url.Values`, query and body parameters) and the identity of its context. -/
structure Request where
  Method : String
  Path : String
  Header : List (String × String)
  Form : List (String × List String)
  ctxId : Nat
deriving DecidableEq, Repr

/-- `r.Context()`: the cancellable context of the request. -/
def Request.Context (r : Request) : Context :=
  .request r.ctxId

/-- `r.FormValue(key)`: the first value of `key` in the form, `""` when there is none. -/
def Request.FormValue (r : Request) (key : String) : String :=
  match r.Form.lookup key with
  | some (v :: _) => v
  | _ => ""

/-- What has been written to an `http.ResponseWriter`: the status code of the
header (`none` while no header was written), the `Location` header, and the
body bytes written by template execution (the short anchor `http.Redirect`
adds to the body of a GET response is left out). -/
structure ResponseWriter where
  status : Option Nat := none
  location : Option String := none
  body : String := ""
deriving DecidableEq, Repr

/-- `w.WriteHeader(code)`: only the first header written counts. -/
def ResponseWriter.WriteHeader (w : ResponseWriter) (code : Nat) : ResponseWriter :=
  match w.status with
  | some _ => w
  | none => { w with status := some code }

/-- `w.Write(bytes)`: an implicit `WriteHeader(200)` when no header was written yet. -/
def ResponseWriter.Write (w : ResponseWriter) (bytes : String) : ResponseWriter :=
  let w1 := w.WriteHeader 200
  { w1 with body := w1.body ++ bytes }

/-- `http.StatusTemporaryRedirect`. -/
def StatusTemporaryRedirect : Nat := 307

/-! ### The URL rewriting of `http.Redirect`

`http.Redirect` does not store the url it is given as it is: a url in which
`url.Parse` finds neither scheme nor host is resolved against the path of the
request and cleaned with `path.Clean`, and every non-ASCII byte of the result is
hex-escaped. The functions below follow `net/http` and `path`; strings are read
as lists of characters, which agrees with the byte-wise library code because the
characters tested (`/`, `.`, `?`) are ASCII. -/

/-- `path.Split(p)`, first result: `p` up to and including its last slash. -/
def pathSplitDir (p : List Char) : List Char :=
  (p.reverse.dropWhile (· != '/')).reverse

/-- The elements of a path: the runs of characters between its slashes. -/
def pathElements : List Char → List (List Char)
  | [] => [[]]
  | c :: cs =>
    if c = '/' then [] :: pathElements cs
    else
      match pathElements cs with
      | e :: es => (c :: e) :: es
      | [] => [[c]]

/-- One step of `path.Clean`: `out` holds the elements kept so far, last one
first. Empty and `.` elements are dropped; `..` removes the element before it,
is dropped at the root, and is kept at the start of a path that is not rooted. -/
def cleanPush (rooted : Bool) (out : List (List Char)) (e : List Char) : List (List Char) :=
  if e = [] ∨ e = ['.'] then out
  else if e = ['.', '.'] then
    match out with
    | top :: rest => if top = ['.', '.'] then e :: out else rest
    | [] => if rooted then [] else [e]
  else e :: out

/-- `path.Clean(p)`. -/
def pathClean (p : List Char) : List Char :=
  let rooted : Bool := p.head? = some '/'
  let out := (pathElements p).foldl (cleanPush rooted) []
  let body := List.intercalate ['/'] out.reverse
  let res := if rooted then '/' :: body else body
  if res = [] then ['.'] else res

/-- The UTF-8 bytes of a character. -/
def utf8Bytes (c : Char) : List Nat :=
  let v := c.toNat
  if v < 0x80 then [v]
  else if v < 0x800 then [0xC0 + v / 64, 0x80 + v % 64]
  else if v < 0x10000 then [0xE0 + v / 4096, 0x80 + v / 64 % 64, 0x80 + v % 64]
  else [0xF0 + v / 262144, 0x80 + v / 4096 % 64, 0x80 + v / 64 % 64, 0x80 + v % 64]

/-- A byte of value 128 or more as `http.hexEscapeNonASCII` writes it: `%` and two
lower-case hexadecimal digits. -/
def hexByte (b : Nat) : List Char :=
  ['%', Nat.digitChar (b / 16), Nat.digitChar (b % 16)]

/-- `http.hexEscapeNonASCII(s)`: ASCII bytes are kept, the others hex-escaped. -/
def hexEscapeNonASCII (s : List Char) : List Char :=
  (s.map fun c => if c.toNat < 128 then [c] else ((utf8Bytes c).map hexByte).flatten).flatten

/-- Whether every character of the string is ASCII. -/
def isASCII (s : String) : Bool :=
  s.toList.all fun c => c.toNat < 128

/-- An argument printed by the `log` package. -/
inductive LogArg where
  | str (s : String)
  | err (e : GoError)
  | config (c : Config)
deriving DecidableEq, Repr

/-- The calls a handler makes that have an effect outside it, in source order. -/
inductive Call where
  | logPrintln (a : LogArg)
  | logFatalln (a : LogArg)
  | redirect (r : Request) (url : String) (code : Nat)
  | exchange (ctx : Context) (code : String)
  | newService (ctx : Context) (token : Token)
  | userinfoGet (svc : Service)
  | parseFiles (name : String)
  | execute (tmpl : Template) (data : Option Userinfoplus)
deriving DecidableEq, Repr

/-- How a handler invocation ends: it returns to the server, the process exits
(`os.Exit(status)`), or it panics. -/
inductive Outcome where
  | returned
  | exited (status : Nat)
  | panicked (e : GoError)
deriving DecidableEq, Repr

/-- The observable result of one handler invocation. -/
structure Result where
  calls : List Call
  w : ResponseWriter
  outcome : Outcome
deriving DecidableEq, Repr

/-- The process-wide configuration set by `init` and the external collaborators. -/
structure World where
  /-- The global `googleOauthConfig`, loaded once at startup. -/
  googleOauthConfig : Config
  /-- `(*oauth2.Config).AuthCodeURL(state)`: builds the URL, no I/O. -/
  AuthCodeURL : Config → String → String
  /-- `url.Parse(url)` as `http.Redirect` reads it: `none` when parsing fails,
  the `Scheme` and the `Host` of the parsed URL otherwise. -/
  URLParse : String → Option (String × String)
  /-- `(*oauth2.Config).Exchange(ctx, code)`: the call to the token endpoint. -/
  Exchange : Config → Context → String → Except GoError Token
  /-- `auth.NewService(ctx, option.WithTokenSource(cfg.TokenSource(ctx, token)))`:
  `none` when the service is created, the error otherwise. -/
  NewService : Context → Config → Token → Option GoError
  /-- `authService.Userinfo.V2.Me.Get().Do()`: the call to the userinfo endpoint. -/
  UserinfoGet : Service → Except GoError Userinfoplus
  /-- `template.ParseFiles(name)`. -/
  ParseFiles : String → Except GoError Template
  /-- `tmpl.Execute(w, data)`: the bytes written to `w` and the error returned. -/
  Execute : Template → Option Userinfoplus → String × Option GoError

/-- The test `u.Scheme == "" && u.Host == ""` of `http.Redirect` on a url that
parses: the url is relative. A url that does not parse is not rewritten. -/
def World.isRelative (W : World) (url : String) : Bool :=
  match W.URLParse url with
  | some (scheme, host) => scheme = "" ∧ host = ""
  | none => false

/-- The value `http.Redirect(w, r, url, code)` stores in the `Location` header,
for a request of path `oldpath0`. -/
def redirectLocation (W : World) (oldpath0 url : String) : String :=
  let resolved : List Char :=
    if W.isRelative url then
      let oldpath := if oldpath0 = "" then "/" else oldpath0
      -- no leading slash: make the relative path absolute
      let url1 :=
        if url.toList.head? = some '/' then url.toList
        else pathSplitDir oldpath.toList ++ url.toList
      let path := url1.takeWhile (· != '?')
      let query := url1.dropWhile (· != '?')
      -- clean up but preserve a trailing slash
      let trailing : Bool := path.getLast? = some '/'
      let cleaned := pathClean path
      let cleaned :=
        if trailing ∧ cleaned.getLast? ≠ some '/' then cleaned ++ ['/'] else cleaned
      cleaned ++ query
    else url.toList
  String.mk (hexEscapeNonASCII resolved)

/-- `http.Redirect(w, r, url, code)`: sets the `Location` header to the rewritten
url and writes the header with `code`. -/
def Redirect (W : World) (w : ResponseWriter) (r : Request) (url : String) (code : Nat) :
    ResponseWriter :=
  ({ w with location := some (redirectLocation W r.Path url) }).WriteHeader code

/-! ## The program -/

/-- The global `oauthStateString`. -/
def oauthStateString : String := "random string"

/-- `log.Fatalln(a)` after the calls `pre`: print, then `os.Exit(1)`; nothing
more is written to `w`. -/
def logFatalln (pre : List Call) (w : ResponseWriter) (a : LogArg) : Result :=
  { calls := pre ++ [.logFatalln a], w := w, outcome := .exited 1 }

/-- The two final statements of `handleIndex` and `handleRedirectAndShowUserInfo`:
`tmpl := template.Must(template.ParseFiles("index.html"))` and
`tmpl.Execute(w, data)`, whose returned error is dropped. -/
def renderIndexHtml (W : World) (pre : List Call) (w : ResponseWriter)
    (data : Option Userinfoplus) : Result :=
  match W.ParseFiles "index.html" with
  | .error e =>
    { calls := pre ++ [.parseFiles "index.html"], w := w, outcome := .panicked e }
  | .ok tmpl =>
    { calls := pre ++ [.parseFiles "index.html", .execute tmpl data],
      w := w.Write (W.Execute tmpl data).1,
      outcome := .returned }

/-- `handleIndex`: render `index.html` with no user. -/
def handleIndex (W : World) (w : ResponseWriter) (_r : Request) : Result :=
  renderIndexHtml W [] w none

/-- `handleLogin`: log the configuration, build the authorization URL from the
state string and redirect to it with 307. -/
def handleLogin (W : World) (w : ResponseWriter) (r : Request) : Result :=
  let url := W.AuthCodeURL W.googleOauthConfig oauthStateString
  { calls := [.logPrintln (.config W.googleOauthConfig),
              .redirect r url StatusTemporaryRedirect],
    w := Redirect W w r url StatusTemporaryRedirect,
    outcome := .returned }

/-- `getUserInfo(ctx, token)`: the calls made and the pair `(user, err)`, where
`(nil, err)` is `.error err`. -/
def getUserInfo (W : World) (ctx : Context) (token : Token) :
    List Call × Except GoError Userinfoplus :=
  match W.NewService ctx W.googleOauthConfig token with
  | some err => ([.newService ctx token], .error err)
  | none =>
    let authService : Service := { ctx := ctx, token := token }
    match W.UserinfoGet authService with
    | .error err => ([.newService ctx token, .userinfoGet authService], .error err)
    | .ok user => ([.newService ctx token, .userinfoGet authService], .ok user)

/-- `handleRedirectAndShowUserInfo`: check the state, exchange the code for a
token, fetch the profile, render `index.html` with it. -/
def handleRedirectAndShowUserInfo (W : World) (w : ResponseWriter) (r : Request) : Result :=
  let ctx := Context.background
  if r.FormValue "state" ≠ oauthStateString then
    logFatalln [] w (.str "invalid auth state")
  else
    let code := r.FormValue "code"
    match W.Exchange W.googleOauthConfig ctx code with
    | .error err => logFatalln [.exchange ctx code] w (.err err)
    | .ok token =>
      match getUserInfo W ctx token with
      | (cs, .error err) => logFatalln (.exchange ctx code :: cs) w (.err err)
      | (cs, .ok user) => renderIndexHtml W (.exchange ctx code :: cs) w (some user)

/-! ## Observations on a result -/

/-- A fresh response writer, as the server hands it to a handler. -/
def ResponseWriter.fresh : ResponseWriter := {}

/-- The call is a token exchange. -/
def Call.isExchange : Call → Bool
  | .exchange _ _ => true
  | _ => false

/-- The call belongs to the profile fetch of `getUserInfo`. -/
def Call.isProfileFetch : Call → Bool
  | .newService _ _ => true
  | .userinfoGet _ => true
  | _ => false

/-- The call executes a template on the response writer. -/
def Call.isRender : Call → Bool
  | .execute _ _ => true
  | _ => false

/-- The call executes a template with a user value. -/
def Call.isRenderWithUser : Call → Bool
  | .execute _ (some _) => true
  | _ => false

/-- The context a network call was given, if the call takes one. -/
def Call.context : Call → Option Context
  | .exchange ctx _ => some ctx
  | .newService ctx _ => some ctx
  | .userinfoGet svc => some svc.ctx
  | _ => none

/-- The handler took the branch that logs "invalid auth state". -/
def Result.invalidAuthState (res : Result) : Prop :=
  Call.logFatalln (.str "invalid auth state") ∈ res.calls

instance (res : Result) : Decidable res.invalidAuthState := by
  unfold Result.invalidAuthState; infer_instance

/-- The response written has a client-error status (4xx). -/
def Result.clientError (res : Result) : Prop :=
  ∃ s, res.w.status = some s ∧ 400 ≤ s ∧ s ≤ 499

/-- The URLs the handler redirected to. -/
def Result.redirectURLs (res : Result) : List String :=
  res.calls.filterMap fun
    | .redirect _ url _ => some url
    | _ => none

/-- One of the three per-request errors of the callback occurs: the state does
not match, the exchange returns an error, or `getUserInfo` returns an error. -/
def perRequestError (W : World) (r : Request) : Prop :=
  r.FormValue "state" ≠ oauthStateString ∨
  (∃ e, W.Exchange W.googleOauthConfig .background (r.FormValue "code") = .error e) ∨
  (∃ t e, W.Exchange W.googleOauthConfig .background (r.FormValue "code") = .ok t ∧
    (getUserInfo W .background t).2 = .error e)

/-! ## Concrete inputs -/

/-- A callback request `GET /callback?code=..&state=..`. -/
def callbackRequest (state code : String) : Request :=
  { Method := "GET", Path := "/callback", Header := [],
    Form := [("code", [code]), ("state", [state])], ctxId := 7 }

/-- A login request with the given headers and query. -/
def loginRequest (hdr : List (String × String)) (form : List (String × List String))
    (ctxId : Nat) : Request :=
  { Method := "GET", Path := "/login", Header := hdr, Form := form, ctxId := ctxId }

/-- A client configuration for the examples. -/
def cfg0 : Config :=
  { ClientID := "id-1", ClientSecret := "s3cret",
    AuthURL := "https://accounts.example/o/oauth2/auth",
    TokenURL := "https://accounts.example/token",
    RedirectURL := "http://localhost:8080/callback",
    Scopes := ["email", "profile"] }

/-- The token of the examples. -/
def tok1 : Token :=
  { AccessToken := "tok1", TokenType := "Bearer", RefreshToken := "", Expiry := 3600 }

/-- The profile of the examples. -/
def user1 : Userinfoplus :=
  { Id := "1", Email := "a@b.com", VerifiedEmail := true, Name := "A", Picture := "" }

/-- The template of the examples: it prints the e-mail of the user, if any. -/
def tmpl0 : Template := { text := "Email" }

/-- The answers of `url.Parse` on the URLs of the examples: those under
`https://accounts.example/` have that scheme and host, the others are relative. -/
def urlParse0 (url : String) : Option (String × String) :=
  if "https://accounts.example/".toList.isPrefixOf url.toList then
    some ("https", "accounts.example")
  else some ("", "")

/-- A world for the examples, given what each collaborator answers. -/
def world0 (exchange : Except GoError Token) (newService : Option GoError)
    (me : Except GoError Userinfoplus) (parse : Except GoError Template) : World :=
  { googleOauthConfig := cfg0
    AuthCodeURL := fun c state => c.AuthURL ++ "?client_id=" ++ c.ClientID ++ "&state=" ++ state
    URLParse := urlParse0
    Exchange := fun _ _ code => if code = "abc123" then exchange else .error ⟨"bad code"⟩
    NewService := fun _ _ _ => newService
    UserinfoGet := fun _ => me
    ParseFiles := fun _ => parse
    Execute := fun _ data =>
      match data with
      | some u => (u.Email, none)
      | none => ("", none) }

/-- The world where every collaborator succeeds. -/
def worldOk : World := world0 (.ok tok1) none (.ok user1) (.ok tmpl0)

/-- The world where the token endpoint answers 500. -/
def world500 : World :=
  world0 (.error ⟨"oauth2: cannot fetch token: 500 Internal Server Error"⟩) none
    (.ok user1) (.ok tmpl0)

/-- The world where the userinfo endpoint rejects the token. -/
def worldFetchFails : World :=
  world0 (.ok tok1) none (.error ⟨"googleapi: Error 401"⟩) (.ok tmpl0)

/-- The world where `index.html` is missing. -/
def worldNoTemplate : World :=
  world0 (.ok tok1) none (.ok user1) (.error ⟨"open index.html: no such file or directory"⟩)

/-- The world whose credentials file gives a relative `auth_uri`. -/
def worldRelativeAuth : World :=
  { worldOk with googleOauthConfig := { cfg0 with AuthURL := "o/oauth2/auth" } }

/-- The world whose credentials file gives an `auth_uri` with a non-ASCII letter. -/
def worldNonASCIIAuth : World :=
  { worldOk with googleOauthConfig := { cfg0 with AuthURL := "https://accounts.example/é" } }

/-! ## Lemmas on `http.Redirect` -/

/-- Hex-escaping leaves a list of ASCII characters as it is. -/
theorem hexEscapeNonASCII_ascii (s : List Char)
    (h : (s.all fun c => c.toNat < 128) = true) : hexEscapeNonASCII s = s := by
  induction s with
  | nil => rfl
  | cons c cs ih =>
    simp only [List.all_cons, Bool.and_eq_true, decide_eq_true_eq] at h
    have ih' : hexEscapeNonASCII cs = cs := by
      apply ih
      simpa using h.2
    simp only [hexEscapeNonASCII, List.map_cons, List.flatten_cons, h.1, if_true] at ih' ⊢
    rw [ih']
    rfl

/-- An absolute ASCII url is stored in the `Location` header as it is. -/
theorem redirectLocation_absolute (W : World) (oldpath url : String)
    (habs : W.isRelative url = false) (hascii : isASCII url = true) :
    redirectLocation W oldpath url = url := by
  unfold redirectLocation
  simp only [habs, Bool.false_eq_true, if_false]
  rw [hexEscapeNonASCII_ascii _ hascii]
  rfl

/-! ## Lemmas on `getUserInfo` -/

theorem getUserInfo_ok {W : World} {ctx : Context} {t : Token} {u : Userinfoplus}
    (h : (getUserInfo W ctx t).2 = .ok u) :
    getUserInfo W ctx t = ([.newService ctx t, .userinfoGet ⟨ctx, t⟩], .ok u) := by
  unfold getUserInfo at h ⊢
  cases hn : W.NewService ctx W.googleOauthConfig t with
  | some err => simp [hn] at h
  | none =>
    simp only [hn] at h ⊢
    cases hm : W.UserinfoGet ⟨ctx, t⟩ with
    | error err => simp [hm] at h
    | ok user => simp [hm] at h ⊢; exact h

theorem getUserInfo_error {W : World} {ctx : Context} {t : Token} {e : GoError}
    (h : (getUserInfo W ctx t).2 = .error e) :
    (W.NewService ctx W.googleOauthConfig t = some e ∧
      getUserInfo W ctx t = ([.newService ctx t], .error e)) ∨
    (W.NewService ctx W.googleOauthConfig t = none ∧
      W.UserinfoGet ⟨ctx, t⟩ = .error e ∧
      getUserInfo W ctx t = ([.newService ctx t, .userinfoGet ⟨ctx, t⟩], .error e)) := by
  unfold getUserInfo at h ⊢
  cases hn : W.NewService ctx W.googleOauthConfig t with
  | some err => simp [hn] at h ⊢; exact h
  | none =>
    simp only [hn] at h ⊢
    cases hm : W.UserinfoGet ⟨ctx, t⟩ with
    | error err => simp [hm] at h ⊢; exact h
    | ok user => simp [hm] at h

/-- On a state mismatch the handler only logs and exits. -/
theorem callback_mismatch {W : World} {w : ResponseWriter} {r : Request}
    (h : r.FormValue "state" ≠ oauthStateString) :
    handleRedirectAndShowUserInfo W w r =
      { calls := [.logFatalln (.str "invalid auth state")], w := w, outcome := .exited 1 } := by
  simp [handleRedirectAndShowUserInfo, h, logFatalln]

/-- On an exchange error the handler logs the error and exits. -/
theorem callback_exchange_error {W : World} {w : ResponseWriter} {r : Request} {e : GoError}
    (hs : r.FormValue "state" = oauthStateString)
    (hx : W.Exchange W.googleOauthConfig .background (r.FormValue "code") = .error e) :
    handleRedirectAndShowUserInfo W w r =
      { calls := [.exchange .background (r.FormValue "code"), .logFatalln (.err e)],
        w := w, outcome := .exited 1 } := by
  simp [handleRedirectAndShowUserInfo, hs, hx, logFatalln]

/-- On a `getUserInfo` error the handler logs the error and exits. -/
theorem callback_fetch_error {W : World} {w : ResponseWriter} {r : Request} {t : Token}
    {e : GoError}
    (hs : r.FormValue "state" = oauthStateString)
    (hx : W.Exchange W.googleOauthConfig .background (r.FormValue "code") = .ok t)
    (hu : (getUserInfo W .background t).2 = .error e) :
    handleRedirectAndShowUserInfo W w r =
      { calls := .exchange .background (r.FormValue "code") ::
          ((getUserInfo W .background t).1 ++ [.logFatalln (.err e)]),
        w := w, outcome := .exited 1 } := by
  rcases getUserInfo_error hu with ⟨_, hg⟩ | ⟨_, _, hg⟩ <;>
    simp [handleRedirectAndShowUserInfo, hs, hx, hg, logFatalln]

/-- When every step succeeds the handler ends in `renderIndexHtml`. -/
theorem callback_success {W : World} {w : ResponseWriter} {r : Request} {t : Token}
    {u : Userinfoplus}
    (hs : r.FormValue "state" = oauthStateString)
    (hx : W.Exchange W.googleOauthConfig .background (r.FormValue "code") = .ok t)
    (hu : (getUserInfo W .background t).2 = .ok u) :
    handleRedirectAndShowUserInfo W w r =
      renderIndexHtml W [.exchange .background (r.FormValue "code"),
        .newService .background t, .userinfoGet ⟨.background, t⟩] w (some u) := by
  simp [handleRedirectAndShowUserInfo, hs, hx, getUserInfo_ok hu]

/-- The state form value of `callbackRequest state code` is `state`. -/
theorem callbackRequest_state (state code : String) :
    (callbackRequest state code).FormValue "state" = state := by
  have h : ("state" == "code") = false := by decide
  simp [callbackRequest, Request.FormValue, List.lookup, h]

/-! ## The state check (C1, C2, C3) -/

/-- C1: the callback handler gets past its state check (does not take the
"invalid auth state" branch) if and only if the "state" form value of the
request equals the issued state "random string" exactly; "Random string",
"random string " and the empty string are all rejected. -/
theorem state_check_exact_match :
    oauthStateString = "random string" ∧
    (∀ (W : World) (w : ResponseWriter) (r : Request),
      ¬ (handleRedirectAndShowUserInfo W w r).invalidAuthState ↔
        r.FormValue "state" = "random string") ∧
    (∀ (W : World) (w : ResponseWriter) (code : String),
      (handleRedirectAndShowUserInfo W w (callbackRequest "Random string" code)).invalidAuthState ∧
      (handleRedirectAndShowUserInfo W w (callbackRequest "random string " code)).invalidAuthState ∧
      (handleRedirectAndShowUserInfo W w (callbackRequest "" code)).invalidAuthState ∧
      (handleRedirectAndShowUserInfo W w
        { Method := "GET", Path := "/callback", Header := [], Form := [("code", [code])],
          ctxId := 0 }).invalidAuthState) := by
  refine ⟨rfl, ?_, ?_⟩
  · intro W w r
    by_cases hs : r.FormValue "state" = oauthStateString
    · have hs' : r.FormValue "state" = "random string" := hs
      refine ⟨fun _ => hs', fun _ => ?_⟩
      unfold Result.invalidAuthState handleRedirectAndShowUserInfo
      simp only [ne_eq, hs, not_true_eq_false, ite_false]
      cases hx : W.Exchange W.googleOauthConfig .background (r.FormValue "code") with
      | error e => simp [logFatalln]
      | ok t =>
        cases hu : (getUserInfo W .background t).2 with
        | error e =>
          rcases getUserInfo_error hu with ⟨_, hg⟩ | ⟨_, _, hg⟩ <;> simp [hg, logFatalln]
        | ok u =>
          simp only [getUserInfo_ok hu, renderIndexHtml]
          cases W.ParseFiles "index.html" <;> simp
    · have hs' : ¬ r.FormValue "state" = "random string" := hs
      simp [callback_mismatch hs, Result.invalidAuthState, hs']
  · intro W w code
    have hne : ∀ r : Request, r.FormValue "state" ≠ oauthStateString →
        (handleRedirectAndShowUserInfo W w r).invalidAuthState := fun r hr => by
      rw [callback_mismatch hr]
      simp [Result.invalidAuthState]
    refine ⟨hne _ ?_, hne _ ?_, hne _ ?_, hne _ ?_⟩
    · rw [callbackRequest_state]; decide
    · rw [callbackRequest_state]; decide
    · rw [callbackRequest_state]; decide
    · have h : ("state" == "code") = false := by decide
      simp [Request.FormValue, List.lookup, h]
      decide

/-- C2: a callback whose "state" form value differs from the issued state makes
no call to the token exchange, none to the profile fetch and none to the
template, whatever authorization code it carries. -/
theorem mismatched_state_never_exchanges (W : World) (w : ResponseWriter) (r : Request)
    (h : r.FormValue "state" ≠ oauthStateString) :
    (handleRedirectAndShowUserInfo W w r).calls.any Call.isExchange = false ∧
    (handleRedirectAndShowUserInfo W w r).calls.any Call.isProfileFetch = false ∧
    (handleRedirectAndShowUserInfo W w r).calls.any Call.isRender = false := by
  rw [callback_mismatch h]
  simp [Call.isExchange, Call.isProfileFetch, Call.isRender]

/-- C2 at the callback with state "bad" and code "abc123": no exchange is made. -/
theorem mismatched_state_never_exchanges_witness :
    (callbackRequest "bad" "abc123").FormValue "state" ≠ oauthStateString ∧
    (handleRedirectAndShowUserInfo worldOk .fresh
      (callbackRequest "bad" "abc123")).calls.any Call.isExchange = false :=
  ⟨by decide,
   (mismatched_state_never_exchanges worldOk .fresh (callbackRequest "bad" "abc123")
      (by decide)).1⟩

/-- C3, as stated, fails: the callback with state "bad" has a mismatched state,
but the handler writes no status at all, so no 4xx response, and the process exits. -/
theorem mismatched_state_no_client_error :
    (callbackRequest "bad" "abc123").FormValue "state" ≠ oauthStateString ∧
    ¬ (handleRedirectAndShowUserInfo worldOk .fresh
        (callbackRequest "bad" "abc123")).clientError ∧
    (handleRedirectAndShowUserInfo worldOk .fresh
        (callbackRequest "bad" "abc123")).w.status = none ∧
    (handleRedirectAndShowUserInfo worldOk .fresh
        (callbackRequest "bad" "abc123")).outcome = .exited 1 := by
  have h : (callbackRequest "bad" "abc123").FormValue "state" ≠ oauthStateString := by decide
  refine ⟨h, ?_, ?_, ?_⟩
  · rw [callback_mismatch h]
    rintro ⟨s, hs, -⟩
    simp [ResponseWriter.fresh] at hs
  · rw [callback_mismatch h]; rfl
  · rw [callback_mismatch h]

/-- C3, amended: on a state mismatch the handler writes nothing to the response
writer (no status, no body): it logs "invalid auth state" and the process
exits with status 1. -/
theorem mismatched_state_exits_unanswered (W : World) (w : ResponseWriter) (r : Request)
    (h : r.FormValue "state" ≠ oauthStateString) :
    (handleRedirectAndShowUserInfo W w r).w = w ∧
    (handleRedirectAndShowUserInfo W w r).calls = [.logFatalln (.str "invalid auth state")] ∧
    (handleRedirectAndShowUserInfo W w r).outcome = .exited 1 := by
  rw [callback_mismatch h]
  exact ⟨rfl, rfl, rfl⟩

/-- C3, amended, at the callback with state "bad": the writer stays fresh and the process exits. -/
theorem mismatched_state_exits_unanswered_witness :
    (handleRedirectAndShowUserInfo worldOk .fresh (callbackRequest "bad" "abc123")).w = .fresh ∧
    (handleRedirectAndShowUserInfo worldOk .fresh (callbackRequest "bad" "abc123")).outcome =
      .exited 1 :=
  have h := mismatched_state_exits_unanswered worldOk .fresh (callbackRequest "bad" "abc123")
    (by decide)
  ⟨h.1, h.2.2⟩

/-! ## Per-request errors (C4, C6, C8) -/

/-- C4, as stated, fails: with an invalid state, with a token endpoint answering
500 and with a failing profile fetch, the handler does not return to the server;
the process exits with status 1 and no response is written. -/
theorem per_request_error_kills_process :
    (handleRedirectAndShowUserInfo worldOk .fresh (callbackRequest "bad" "abc123")).outcome
      = .exited 1 ∧
    (handleRedirectAndShowUserInfo world500 .fresh
      (callbackRequest "random string" "abc123")).outcome = .exited 1 ∧
    (handleRedirectAndShowUserInfo worldFetchFails .fresh
      (callbackRequest "random string" "abc123")).outcome = .exited 1 ∧
    (handleRedirectAndShowUserInfo world500 .fresh
      (callbackRequest "random string" "abc123")).outcome ≠ .returned ∧
    (handleRedirectAndShowUserInfo world500 .fresh
      (callbackRequest "random string" "abc123")).w.status = none := by
  decide

/-- C4, amended: every per-request error of the callback (invalid state, exchange
error, profile fetch error) ends the process: the handler calls `log.Fatalln`,
the process exits with status 1, nothing is written to the response and the
handler does not return to the server. -/
theorem per_request_error_exits (W : World) (w : ResponseWriter) (r : Request)
    (h : perRequestError W r) :
    (handleRedirectAndShowUserInfo W w r).outcome = .exited 1 ∧
    (handleRedirectAndShowUserInfo W w r).outcome ≠ .returned ∧
    (handleRedirectAndShowUserInfo W w r).w = w ∧
    (handleRedirectAndShowUserInfo W w r).calls.any Call.isRender = false := by
  by_cases hs : r.FormValue "state" = oauthStateString
  · rcases h with h | ⟨e, hx⟩ | ⟨t, e, hx, hu⟩
    · exact absurd hs h
    · rw [callback_exchange_error hs hx]
      simp [Call.isRender]
    · rw [callback_fetch_error hs hx hu]
      rcases getUserInfo_error hu with ⟨_, hg⟩ | ⟨_, _, hg⟩ <;> simp [hg, Call.isRender]
  · rw [callback_mismatch hs]
    simp [Call.isRender]

/-- C4, amended, at a callback whose profile fetch is rejected: the process exits. -/
theorem per_request_error_exits_witness :
    perRequestError worldFetchFails (callbackRequest "random string" "abc123") ∧
    (handleRedirectAndShowUserInfo worldFetchFails .fresh
      (callbackRequest "random string" "abc123")).outcome = .exited 1 :=
  have h : perRequestError worldFetchFails (callbackRequest "random string" "abc123") :=
    Or.inr (Or.inr ⟨tok1, ⟨"googleapi: Error 401"⟩, rfl, rfl⟩)
  ⟨h, (per_request_error_exits worldFetchFails .fresh
    (callbackRequest "random string" "abc123") h).1⟩

/-- C6: with a valid state, when the token exchange returns an error the handler
takes its error exit: the only calls are the exchange and `log.Fatalln` of that
error, so `getUserInfo` is never called and no template is executed. -/
theorem exchange_error_stops_flow (W : World) (w : ResponseWriter) (r : Request)
    (e : GoError)
    (hs : r.FormValue "state" = oauthStateString)
    (hx : W.Exchange W.googleOauthConfig .background (r.FormValue "code") = .error e) :
    (handleRedirectAndShowUserInfo W w r).calls =
      [.exchange .background (r.FormValue "code"), .logFatalln (.err e)] ∧
    (handleRedirectAndShowUserInfo W w r).calls.any Call.isProfileFetch = false ∧
    (handleRedirectAndShowUserInfo W w r).calls.any Call.isRender = false ∧
    (handleRedirectAndShowUserInfo W w r).outcome = .exited 1 ∧
    (handleRedirectAndShowUserInfo W w r).w = w := by
  rw [callback_exchange_error hs hx]
  simp [Call.isProfileFetch, Call.isRender]

/-- C6 at a token endpoint answering 500: no profile fetch and no rendering. -/
theorem exchange_error_stops_flow_witness :
    (handleRedirectAndShowUserInfo world500 .fresh
      (callbackRequest "random string" "abc123")).calls.any Call.isProfileFetch = false ∧
    (handleRedirectAndShowUserInfo world500 .fresh
      (callbackRequest "random string" "abc123")).calls.any Call.isRender = false :=
  have h := exchange_error_stops_flow world500 .fresh (callbackRequest "random string" "abc123")
    ⟨"oauth2: cannot fetch token: 500 Internal Server Error"⟩ (by decide) rfl
  ⟨h.2.1, h.2.2.1⟩

/-- C8: when `getUserInfo` returns an error, either creating the service failed
and the userinfo call was not made, or the userinfo call itself failed; in both
cases the handler takes its error exit and never parses or executes the
template. -/
theorem fetch_error_never_renders (W : World) (w : ResponseWriter) (r : Request)
    (t : Token) (e : GoError)
    (hs : r.FormValue "state" = oauthStateString)
    (hx : W.Exchange W.googleOauthConfig .background (r.FormValue "code") = .ok t)
    (hu : (getUserInfo W .background t).2 = .error e) :
    ((W.NewService .background W.googleOauthConfig t = some e ∧
        (handleRedirectAndShowUserInfo W w r).calls =
          [.exchange .background (r.FormValue "code"), .newService .background t,
           .logFatalln (.err e)]) ∨
      (W.NewService .background W.googleOauthConfig t = none ∧
        W.UserinfoGet ⟨.background, t⟩ = .error e ∧
        (handleRedirectAndShowUserInfo W w r).calls =
          [.exchange .background (r.FormValue "code"), .newService .background t,
           .userinfoGet ⟨.background, t⟩, .logFatalln (.err e)])) ∧
    (handleRedirectAndShowUserInfo W w r).calls.any Call.isRender = false ∧
    (handleRedirectAndShowUserInfo W w r).calls.any Call.isRenderWithUser = false ∧
    (handleRedirectAndShowUserInfo W w r).outcome = .exited 1 ∧
    (handleRedirectAndShowUserInfo W w r).w = w := by
  rw [callback_fetch_error hs hx hu]
  rcases getUserInfo_error hu with ⟨hn, hg⟩ | ⟨hn, hm, hg⟩
  · simp [hg, hn, Call.isRender, Call.isRenderWithUser]
  · simp [hg, hn, hm, Call.isRender, Call.isRenderWithUser]

/-- C8 at a userinfo endpoint rejecting the token: no template is executed with a user. -/
theorem fetch_error_never_renders_witness :
    (handleRedirectAndShowUserInfo worldFetchFails .fresh
      (callbackRequest "random string" "abc123")).calls.any Call.isRenderWithUser = false ∧
    (handleRedirectAndShowUserInfo worldFetchFails .fresh
      (callbackRequest "random string" "abc123")).outcome = .exited 1 :=
  have h := fetch_error_never_renders worldFetchFails .fresh
    (callbackRequest "random string" "abc123") tok1 ⟨"googleapi: Error 401"⟩ (by decide) rfl rfl
  ⟨h.2.2.1, h.2.2.2.1⟩

/-! ## Login (C5, C9) -/

set_option maxRecDepth 100000 in
/-- C5, as stated, fails: with a relative `auth_uri` in the credentials file the
`Location` header of the 307 response is not the URL computed by `AuthCodeURL`
but that URL resolved against the request path `/login`; with a non-ASCII
letter in it, the header holds the URL with that letter hex-escaped. -/
theorem login_location_rewritten :
    worldRelativeAuth.AuthCodeURL worldRelativeAuth.googleOauthConfig oauthStateString =
      "o/oauth2/auth?client_id=id-1&state=random string" ∧
    (handleLogin worldRelativeAuth .fresh (loginRequest [] [] 1)).w.status = some 307 ∧
    (handleLogin worldRelativeAuth .fresh (loginRequest [] [] 1)).w.location =
      some "/o/oauth2/auth?client_id=id-1&state=random string" ∧
    (handleLogin worldRelativeAuth .fresh (loginRequest [] [] 1)).w.location ≠
      some (worldRelativeAuth.AuthCodeURL worldRelativeAuth.googleOauthConfig
        oauthStateString) ∧
    worldNonASCIIAuth.AuthCodeURL worldNonASCIIAuth.googleOauthConfig oauthStateString =
      "https://accounts.example/é?client_id=id-1&state=random string" ∧
    (handleLogin worldNonASCIIAuth .fresh (loginRequest [] [] 1)).w.location =
      some "https://accounts.example/%c3%a9?client_id=id-1&state=random string" ∧
    (handleLogin worldNonASCIIAuth .fresh (loginRequest [] [] 1)).w.location ≠
      some (worldNonASCIIAuth.AuthCodeURL worldNonASCIIAuth.googleOauthConfig
        oauthStateString) := by
  refine ⟨by decide, by decide, ?_, ?_, by decide, ?_, ?_⟩ <;> decide

/-- C5, amended: `handleLogin` answers every login request with status 307 by
calling `http.Redirect` with exactly the authorization URL
`AuthCodeURL(oauthStateString)` of the loaded configuration; its only calls are
the log line and that redirect, so it makes no token exchange and no profile
fetch, and it returns to the server. When that URL is absolute and ASCII, the
`Location` header is exactly that URL. -/
theorem login_redirects_307 (W : World) (r : Request) :
    (handleLogin W .fresh r).w.status = some 307 ∧
    (handleLogin W .fresh r).calls =
      [.logPrintln (.config W.googleOauthConfig),
       .redirect r (W.AuthCodeURL W.googleOauthConfig oauthStateString) 307] ∧
    (handleLogin W .fresh r).calls.any Call.isExchange = false ∧
    (handleLogin W .fresh r).calls.any Call.isProfileFetch = false ∧
    (handleLogin W .fresh r).outcome = .returned ∧
    (W.isRelative (W.AuthCodeURL W.googleOauthConfig oauthStateString) = false →
      isASCII (W.AuthCodeURL W.googleOauthConfig oauthStateString) = true →
      (handleLogin W .fresh r).w.location =
        some (W.AuthCodeURL W.googleOauthConfig oauthStateString)) := by
  refine ⟨?_, ?_, ?_, ?_, ?_, ?_⟩
  · simp [handleLogin, Redirect, ResponseWriter.WriteHeader, ResponseWriter.fresh,
      StatusTemporaryRedirect]
  · simp [handleLogin, StatusTemporaryRedirect]
  · simp [handleLogin, Call.isExchange]
  · simp [handleLogin, Call.isProfileFetch]
  · simp [handleLogin]
  · intro habs hascii
    simp [handleLogin, Redirect, ResponseWriter.WriteHeader, ResponseWriter.fresh,
      redirectLocation_absolute W r.Path _ habs hascii]

/-- C5, amended, at the world of the examples, whose authorization URL is
absolute and ASCII: status 307 and that URL in the `Location` header. -/
theorem login_redirects_307_witness :
    worldOk.isRelative (worldOk.AuthCodeURL worldOk.googleOauthConfig oauthStateString)
      = false ∧
    isASCII (worldOk.AuthCodeURL worldOk.googleOauthConfig oauthStateString) = true ∧
    (handleLogin worldOk .fresh (loginRequest [] [] 1)).w.status = some 307 ∧
    (handleLogin worldOk .fresh (loginRequest [] [] 1)).w.location =
      some "https://accounts.example/o/oauth2/auth?client_id=id-1&state=random string" :=
  have h := login_redirects_307 worldOk (loginRequest [] [] 1)
  ⟨by decide, by decide, h.1, (h.2.2.2.2.2 (by decide) (by decide)).trans (by decide)⟩

/-- C9: the redirect URL of `handleLogin` does not depend on the request: any two
login requests get the same URL, the one built from the configuration and the
constant state "random string"; the `Location` header made from it by
`http.Redirect` depends on the request through its path only, which is `/login`
for every request routed to `handleLogin`. -/
theorem login_url_request_independent (W : World) (w₁ w₂ : ResponseWriter)
    (r₁ r₂ : Request) :
    (handleLogin W w₁ r₁).redirectURLs = (handleLogin W w₂ r₂).redirectURLs ∧
    (r₁.Path = r₂.Path →
      (handleLogin W w₁ r₁).w.location = (handleLogin W w₂ r₂).w.location) ∧
    (handleLogin W w₁ r₁).redirectURLs = [W.AuthCodeURL W.googleOauthConfig "random string"] ∧
    (handleLogin W w₁ r₁).w.location =
      some (redirectLocation W r₁.Path (W.AuthCodeURL W.googleOauthConfig "random string")) ∧
    (handleLogin worldOk .fresh (loginRequest [("Accept", "text/html")] [] 1)).redirectURLs =
      (handleLogin worldOk .fresh
        (loginRequest [("Cookie", "a=b")] [("state", ["other"])] 2)).redirectURLs ∧
    (handleLogin worldOk .fresh (loginRequest [("Accept", "text/html")] [] 1)).w.location =
      (handleLogin worldOk .fresh
        (loginRequest [("Cookie", "a=b")] [("state", ["other"])] 2)).w.location := by
  have hl : ∀ (w : ResponseWriter) (r : Request),
      (handleLogin W w r).w.location =
        some (redirectLocation W r.Path
          (W.AuthCodeURL W.googleOauthConfig "random string")) := by
    intro w r
    simp only [handleLogin, Redirect, ResponseWriter.WriteHeader, oauthStateString]
    cases w.status <;> rfl
  refine ⟨rfl, ?_, rfl, hl _ _, rfl, rfl⟩
  intro hp
  rw [hl, hl, hp]

/-! ## The success path (C7) -/

/-- C7, as stated, fails: with the issued state, a successful exchange of the code
"abc123" for `tok1` and a successful fetch of `user1` with that token, but no
parsable `index.html`, `template.Must` panics and the profile view is never
rendered: no template is executed and the body stays empty. -/
theorem success_path_without_template :
    (callbackRequest "random string" "abc123").FormValue "state" = oauthStateString ∧
    worldNoTemplate.Exchange worldNoTemplate.googleOauthConfig .background
      ((callbackRequest "random string" "abc123").FormValue "code") = .ok tok1 ∧
    (getUserInfo worldNoTemplate .background tok1).2 = .ok user1 ∧
    (handleRedirectAndShowUserInfo worldNoTemplate .fresh
      (callbackRequest "random string" "abc123")).calls.any Call.isRender = false ∧
    (handleRedirectAndShowUserInfo worldNoTemplate .fresh
      (callbackRequest "random string" "abc123")).w.body = "" ∧
    (handleRedirectAndShowUserInfo worldNoTemplate .fresh
      (callbackRequest "random string" "abc123")).outcome =
        .panicked ⟨"open index.html: no such file or directory"⟩ :=
  ⟨by decide, rfl, rfl, by decide, by decide, by decide⟩

/-- C7, amended: for a callback whose state equals the issued state, if the
exchange called with the "code" form value succeeds with token `t`, the profile
fetch called with `t` succeeds with profile `u`, and `index.html` parses to a
template `tmpl`, then the handler executes `tmpl` exactly once, with exactly `u`,
writes its output as the response body and returns to the server. -/
theorem success_path_renders_profile (W : World) (w : ResponseWriter) (r : Request)
    (t : Token) (u : Userinfoplus) (tmpl : Template)
    (hs : r.FormValue "state" = oauthStateString)
    (hx : W.Exchange W.googleOauthConfig .background (r.FormValue "code") = .ok t)
    (hu : (getUserInfo W .background t).2 = .ok u)
    (hp : W.ParseFiles "index.html" = .ok tmpl) :
    (handleRedirectAndShowUserInfo W w r).calls =
      [.exchange .background (r.FormValue "code"), .newService .background t,
       .userinfoGet ⟨.background, t⟩, .parseFiles "index.html", .execute tmpl (some u)] ∧
    (handleRedirectAndShowUserInfo W w r).calls.filter Call.isRender =
      [.execute tmpl (some u)] ∧
    (handleRedirectAndShowUserInfo W w r).w = w.Write (W.Execute tmpl (some u)).1 ∧
    (handleRedirectAndShowUserInfo W w r).w.body = w.body ++ (W.Execute tmpl (some u)).1 ∧
    (handleRedirectAndShowUserInfo W w r).outcome = .returned := by
  rw [callback_success hs hx hu]
  unfold renderIndexHtml
  rw [hp]
  refine ⟨rfl, ?_, rfl, ?_, rfl⟩
  · simp [List.filter, Call.isRender]
  · simp only [ResponseWriter.Write, ResponseWriter.WriteHeader]
    cases w.status <;> rfl

/-- C7, amended, at code "abc123", token `tok1` and the profile with e-mail "a@b.com":
the template is executed with that profile and the body is the e-mail it prints. -/
theorem success_path_renders_profile_witness :
    (handleRedirectAndShowUserInfo worldOk .fresh
      (callbackRequest "random string" "abc123")).calls.filter Call.isRender =
        [.execute tmpl0 (some user1)] ∧
    user1.Email = "a@b.com" ∧
    (handleRedirectAndShowUserInfo worldOk .fresh
      (callbackRequest "random string" "abc123")).w.body = "a@b.com" ∧
    (handleRedirectAndShowUserInfo worldOk .fresh
      (callbackRequest "random string" "abc123")).w.status = some 200 :=
  have h := success_path_renders_profile worldOk .fresh
    (callbackRequest "random string" "abc123") tok1 user1 tmpl0 (by decide) rfl rfl rfl
  ⟨h.2.1, rfl, h.2.2.2.1.trans (by decide), by rw [h.2.2.1]; decide⟩

/-! ## The execution context (C10) -/

/-- C10, as stated, fails: the callback request has the cancellable context
`r.Context()`, but the exchange, the service and the userinfo call are all given
`context.Background()`, which is a different context and cannot be cancelled. -/
theorem network_calls_ignore_request_context :
    (handleRedirectAndShowUserInfo worldOk .fresh
      (callbackRequest "random string" "abc123")).calls.filterMap Call.context =
        [.background, .background, .background] ∧
    (callbackRequest "random string" "abc123").Context = .request 7 ∧
    (callbackRequest "random string" "abc123").Context.cancellable = true ∧
    Context.background ≠ (callbackRequest "random string" "abc123").Context ∧
    Context.background.cancellable = false := by
  decide

/-- C10, amended: every network call of the callback handler (token exchange,
service creation, userinfo call) is given `context.Background()`, whatever the
request; that context is not the request's and can never be cancelled. -/
theorem network_calls_use_background (W : World) (w : ResponseWriter) (r : Request) :
    ((handleRedirectAndShowUserInfo W w r).calls.filterMap Call.context).all
      (fun ctx => decide (ctx = .background)) = true ∧
    Context.background ≠ r.Context ∧
    Context.background.cancellable = false := by
  refine ⟨?_, by simp [Request.Context], rfl⟩
  by_cases hs : r.FormValue "state" = oauthStateString
  · cases hx : W.Exchange W.googleOauthConfig .background (r.FormValue "code") with
    | error e =>
      rw [callback_exchange_error hs hx]
      simp [Call.context]
    | ok t =>
      cases hu : (getUserInfo W .background t).2 with
      | error e =>
        rw [callback_fetch_error hs hx hu]
        rcases getUserInfo_error hu with ⟨_, hg⟩ | ⟨_, _, hg⟩ <;> simp [hg, Call.context]
      | ok u =>
        rw [callback_success hs hx hu]
        unfold renderIndexHtml
        cases W.ParseFiles "index.html" <;> simp [Call.context]
  · rw [callback_mismatch hs]
    simp [Call.context]

end GoOAuth2Test
